import Mathlib

/-!
# amp-eks-iam: a shallow embedding of `main.go` and `help.go`

The program is a linear script: resolve the flags, look up the OIDC issuer
of the cluster, render a trust document, create the IAM role and attach one
managed policy.  Go strings are modelled by `String`, the package-level flag
variables by the record `Globals`, the AWS SDK by a record of responses
(`World`), and every call made to the SDK is recorded in a trace.  Errors and
log lines keep the format string of the source and its operands, unformatted.
-/

namespace AmpEksIam

/-! ## Constants (`main.go`, lines 34-39) -/

def defaultNamespace : String := "prometheus"

def defaultIAMRole : String := "EKS-AMP-ServiceAccount"

def defaultIAMRoleDescription : String :=
  "IAM role to be used by a K8s service account with write access to AMP"

def ampRemoteWritePolicy : String :=
  "arn:aws:iam::aws:policy/AmazonPrometheusRemoteWriteAccess"

/-! ## The trust document template (`main.go`, lines 156-179) -/

/-- The four values substituted into the trust document (`type trustDocVars`). -/
structure trustDocVars where
  Account : String
  Namespace : String
  ServiceAccount : String
  OIDC : String
  deriving Repr, DecidableEq

/-- The raw template text handed to `template.Parse`, character for character. -/
def trustDocText : String :=
  "\x7b\n" ++
  "\t\"Version\": \"2012-10-17\",\n" ++
  "\t\"Statement\": [\n" ++
  "\t\t\x7b\n" ++
  "\t\t\t\"Effect\":\"Allow\",\n" ++
  "\t\t\t\"Principal\":\x7b\n" ++
  "\t\t\t\t\"Federated\": \"arn:aws:iam::\x7b\x7b.Account\x7d\x7d:oidc-provider/\x7b\x7b.OIDC\x7d\x7d\"\n" ++
  "\t\t\t\x7d,\n" ++
  "\t\t\t\"Action\":\"sts:AssumeRoleWithWebIdentity\",\n" ++
  "\t\t\t\"Condition\":\x7b\n" ++
  "\t\t\t\t\"StringEquals\": \x7b\n" ++
  "\t\t\t\t\t\"\x7b\x7b.OIDC\x7d\x7d:sub\": \"system:serviceaccount:\x7b\x7b.Namespace\x7d\x7d:\x7b\x7b.ServiceAccount\x7d\x7d\"\n" ++
  "\t\t\t\t\x7d\n" ++
  "\t\t\t\x7d\n" ++
  "\t\t\x7d\n" ++
  "\t]\n" ++
  "\x7d"

/-- A parsed template: literal text, or the action printing one field of the data. -/
inductive Node where
  | text (s : String)
  | field (name : String)
  deriving Repr, DecidableEq

/-- Literal text collected so far becomes a text node, unless it is empty. -/
def textNode (acc : List Char) : List Node :=
  if acc = [] then [] else [Node.text (String.mk acc)]

/-- The body of an action; the fragment of the template language used by
`trustDocTmpl` is a dot followed by a field name made of letters and digits. -/
def actionNode (body : List Char) : Except String Node :=
  match body with
  | '.' :: name =>
    if name ≠ [] ∧ name.all (fun c => c.isAlphanum || c == '_') then
      .ok (Node.field (String.mk name))
    else .error "unsupported action"
  | _ => .error "unsupported action"

/-- The lexer and parser of `text/template`, for templates made of text and
field actions: text runs up to the left delimiter (two opening braces), an
action runs up to the right delimiter (two closing braces). -/
def parseNodes (inAction : Bool) (acc : List Char) :
    List Char → Except String (List Node)
  | [] => if inAction then .error "unclosed action" else .ok (textNode acc)
  | [c] =>
    if inAction then .error "unclosed action" else .ok (textNode (acc ++ [c]))
  | c :: d :: rest =>
    if !inAction && c == '\x7b' && d == '\x7b' then
      match parseNodes true [] rest with
      | .ok ns => .ok (textNode acc ++ ns)
      | .error e => .error e
    else if inAction && c == '\x7d' && d == '\x7d' then
      match actionNode acc, parseNodes false [] rest with
      | .ok n, .ok ns => .ok (n :: ns)
      | .error e, _ => .error e
      | _, .error e => .error e
    else parseNodes inAction (acc ++ [c]) (d :: rest)

/-- The call `template.New("trust-doc").Parse(text)`. -/
def Parse (text : String) : Except String (List Node) :=
  parseNodes false [] text.data

/-- Field lookup by name in `trustDocVars`, as the template executor does by
reflection; a name that is not a field of the struct is an execution error. -/
def trustDocVars.lookup (v : trustDocVars) (name : String) : Option String :=
  if name = "Account" then some v.Account
  else if name = "Namespace" then some v.Namespace
  else if name = "ServiceAccount" then some v.ServiceAccount
  else if name = "OIDC" then some v.OIDC
  else none

/-- The call `Execute`: text nodes are written as they are, a field action
writes the string value of the field as it is (`text/template` does not
escape). -/
def Execute (v : trustDocVars) : List Node → Except String String
  | [] => .ok ""
  | Node.text s :: ns =>
    match Execute v ns with
    | .ok out => .ok (s ++ out)
    | .error e => .error e
  | Node.field name :: ns =>
    match v.lookup name with
    | none => .error ("can't evaluate field " ++ name)
    | some val =>
      match Execute v ns with
      | .ok out => .ok (val ++ out)
      | .error e => .error e

/-- The package variable `trustDocTmpl`; `template.Must` panics at start-up
when parsing fails, which is the `error` case here. -/
def trustDocTmpl : Except String (List Node) := Parse trustDocText

/-- Rendering of the trust document, lines 105-113 of `createRole`. -/
def renderTrustDoc (v : trustDocVars) : Except String String :=
  match trustDocTmpl with
  | .ok ns => Execute v ns
  | .error e => .error e

/-! ## The help text (`help.go`) -/

def helpText : String :=
  "amp-eks-iam <cluster flags> [options...]\n" ++
  "\n" ++
  "amp-eks-iam creates the required IAM policies and roles to give\n" ++
  "remote write privileges to an EKS service account.\n" ++
  "\n" ++
  "Example:\n" ++
  "$ amp-eks-iam \\\n" ++
  "   -region=us-east-1 -cluster=eks-cluster\n" ++
  "\n" ++
  "Cluster flags:\n" ++
  "-cluster         EKS cluster name.\n" ++
  "\n" ++
  "Options:\n" ++
  "-namespace       Kubernetes namespace to apply the policy to. By default, \"prometheus\".\n" ++
  "-service-account Kubernetes service account to apply the policy to. By default, the namespace.\n" ++
  "-role            IAM role name to create, default is\n" ++
  "                 \"EKS-AMP-ServiceAccount-\x7bregion\x7d-\x7bcluster\x7d-\x7bnamespace\x7d-\x7bsa\x7d\".\n" ++
  "-region          AWS region of the EKS cluster."

/-! ## Library functions used by `main.go` -/

/-- The scan of `strings.Replace` for a non-empty `old`: occurrences are found
from the left and do not overlap; `skip` counts the characters of a matched
occurrence that are still to be passed over. -/
def replaceScan (old new : List Char) : Nat → List Char → List Char
  | _, [] => []
  | skip + 1, _ :: cs => replaceScan old new skip cs
  | 0, c :: cs =>
    if old.isPrefixOf (c :: cs) then new ++ replaceScan old new (old.length - 1) cs
    else c :: replaceScan old new 0 cs

/-- The function `strings.ReplaceAll(s, old, new)`.  With an empty `old` the
replacement is inserted before every character and at the end.  The scan is
over characters; for an ASCII `old` in well-formed UTF-8 this finds the same
occurrences as the scan over bytes. -/
def ReplaceAll (s old new : String) : String :=
  if old.data = [] then String.mk (new.data ++ s.data.flatMap (fun c => c :: new.data))
  else String.mk (replaceScan old.data new.data 0 s.data)

/-- The call `fmt.Sprintf("%s-%s-%s-%s-%s", a, b, c, d, e)` of line 76. -/
def sprintfDashed (a b c d e : String) : String :=
  a ++ "-" ++ b ++ "-" ++ c ++ "-" ++ d ++ "-" ++ e

/-- The constant `iam.ErrCodeEntityAlreadyExistsException` of the AWS SDK. -/
def ErrCodeEntityAlreadyExistsException : String := "EntityAlreadyExists"

/-! ## Errors, log lines and the outside world -/

/-- An `error` value handed back by the AWS SDK.  `awsCode` is `some code`
exactly when the value implements `awserr.Error` (the type assertion of line
121 succeeds) and `Code()` returns `code`; `text` is what `Error()` returns. -/
structure SdkError where
  awsCode : Option String
  text : String
  deriving Repr, DecidableEq

/-- An operand of a format string in `fmt.Errorf`. -/
inductive Operand where
  | str (s : String)
  | sdk (e : SdkError)
  deriving Repr, DecidableEq

/-- An error built by `fmt.Errorf` or `errors.New`: the format string of the
source and its operands, kept unformatted. -/
structure GoError where
  format : String
  args : List Operand
  deriving Repr, DecidableEq

/-- The operand of a `log.Fatalf` or `log.Printf` call in `main`. -/
inductive LogOperand where
  | str (s : String)
  | sdk (e : SdkError)
  | err (e : GoError)
  deriving Repr, DecidableEq

/-- One line written by the `log` package: format string and operand. -/
structure LogLine where
  format : String
  arg : LogOperand
  deriving Repr, DecidableEq

/-- The calls the program makes to the AWS SDK, with their arguments. -/
inductive Call where
  -- line 142, in `defaultRegion`
  | NewSessionWithOptions
  -- line 84; the argument is `cfg.Region`, `none` for a nil pointer
  | NewSession (region : Option String)
  -- line 98
  | DescribeCluster (name : String)
  -- line 115
  | CreateRole (roleName policyDocument description : String)
  -- line 130
  | AttachRolePolicy (policyArn roleName : String)
  deriving Repr, DecidableEq

/-- The responses of the AWS SDK.  Each call is made at most once in a run, so
a response is a function of the arguments of the call.
* `NewSessionWithOptions`: an error, or the `Config.Region` pointer of the
  session (`none` for nil);
* `DescribeCluster`: an error, or the issuer reached through
  `Cluster.Identity.Oidc.Issuer` (`none` when a pointer on that path is nil);
* the others: `none` for a nil error. -/
structure World where
  NewSessionWithOptions : Except SdkError (Option String)
  NewSession : Option String → Option SdkError
  DescribeCluster : String → Except SdkError (Option String)
  CreateRole : String → String → String → Option SdkError
  AttachRolePolicy : String → String → Option SdkError

/-! ## Flags and package variables (`main.go`, lines 41-60) -/

/-- The package-level variables holding the flag values. -/
structure Globals where
  account : String
  cluster : String
  region : String
  namespace_ : String
  serviceAccount : String
  role : String
  deriving Repr, DecidableEq

/-- The flags present on the command line; `none` is a flag that is absent. -/
structure Flags where
  account : Option String
  cluster : Option String
  region : Option String
  namespace_ : Option String
  serviceAccount : Option String
  role : Option String
  deriving Repr, DecidableEq

/-- What `flag.Parse` leaves in the package variables: the value given, or
the default registered with `flag.StringVar` (lines 51-56). -/
def Flags.parse (f : Flags) : Globals where
  account := f.account.getD ""
  cluster := f.cluster.getD ""
  region := f.region.getD ""
  namespace_ := f.namespace_.getD defaultNamespace
  serviceAccount := f.serviceAccount.getD ""
  role := f.role.getD ""

/-- The command line as `flag.Parse` sees it: a help request or a malformed
flag makes it call `flag.Usage`; otherwise the flags are stored. -/
inductive CommandLine where
  | usage
  | flags (f : Flags)
  deriving Repr, DecidableEq

/-- The observable behaviour of one run of the program. -/
structure Run where
  calls : List Call
  stdout : List String
  log : List LogLine
  exit : Nat
  deriving Repr, DecidableEq

/-! ## The program -/

/-- The function `usageText` of `help.go`: print the help text and leave with
the given exit code. -/
def usageText (exit : Nat) : Run :=
  { calls := [], stdout := [helpText], log := [], exit := exit }

/-- A call of `log.Fatalf`: one log line, exit code 1. -/
def fatalf (calls : List Call) (format : String) (arg : LogOperand) : Run :=
  { calls := calls, stdout := [], log := [⟨format, arg⟩], exit := 1 }

/-- The function `defaultRegion` (lines 141-154). -/
def defaultRegion (w : World) : Except GoError String :=
  match w.NewSessionWithOptions with
  | .error err => .error ⟨"failed to create session: %v", [.sdk err]⟩
  | .ok none => .error ⟨"no default region is set", []⟩
  | .ok (some reg) => .ok reg

/-- How the first part of `main` ends: the process is over, or the package
variables are resolved and `main` goes on to the session and `createRole`. -/
inductive Resolved where
  | exit (r : Run)
  | proceed (calls : List Call) (g : Globals)
  deriving Repr, DecidableEq

/-- Lines 72-78 of `main`: the defaults of the service account and the role. -/
def applyNameDefaults (g : Globals) : Globals :=
  let g1 := if g.serviceAccount = "" then { g with serviceAccount := g.namespace_ } else g
  if g1.role = "" then
    { g1 with role :=
        sprintfDashed defaultIAMRole g1.region g1.cluster g1.namespace_ g1.serviceAccount }
  else g1

/-- Lines 62-78 of `main`, on the package variables as `flag.Parse` left them. -/
def resolve (w : World) (g : Globals) : Resolved :=
  if g.account = "" ∨ g.cluster = "" then .exit (usageText 1)
  else if g.region = "" then
    match defaultRegion w with
    | .error err =>
      .exit (fatalf [.NewSessionWithOptions] "Cannot identify the default region: %v" (.err err))
    | .ok reg => .proceed [.NewSessionWithOptions] (applyNameDefaults { g with region := reg })
  else .proceed [] (applyNameDefaults g)

/-- The composite literal of lines 106-111: the data of the template. -/
def trustDocVarsOf (g : Globals) (issuer : String) : trustDocVars where
  Account := g.account
  Namespace := g.namespace_
  ServiceAccount := g.serviceAccount
  OIDC := ReplaceAll issuer "https://" ""

/-- How `createRole` ends: a nil error, an error, or the run-time panic of
dereferencing a nil pointer at line 110. -/
inductive Outcome where
  | ok
  | failed (e : GoError)
  | nilDeref
  deriving Repr, DecidableEq

/-- The function `createRole` (lines 95-139): the calls made, in order, and
the way it ends. -/
def createRole (w : World) (g : Globals) : List Call × Outcome :=
  let c1 := Call.DescribeCluster g.cluster
  match w.DescribeCluster g.cluster with
  | .error err => ([c1], .failed ⟨"failed to find the EKS cluster: %v", [.sdk err]⟩)
  | .ok none => ([c1], .nilDeref)
  | .ok (some issuer) =>
    match renderTrustDoc (trustDocVarsOf g issuer) with
    | .error e =>
      ([c1], .failed ⟨"failed to generate the trust relationship document: %v", [.str e]⟩)
    | .ok trustDoc =>
      let c2 := Call.CreateRole g.role trustDoc defaultIAMRoleDescription
      let c3 := Call.AttachRolePolicy ampRemoteWritePolicy g.role
      let attach : List Call × Outcome :=
        match w.AttachRolePolicy ampRemoteWritePolicy g.role with
        | some err =>
          ([c1, c2, c3], .failed ⟨"failed to attach the policy to the role: %v", [.sdk err]⟩)
        | none => ([c1, c2, c3], .ok)
      match w.CreateRole g.role trustDoc defaultIAMRoleDescription with
      | none => attach
      | some err =>
        match err.awsCode with
        | some code =>
          if code ≠ ErrCodeEntityAlreadyExistsException then
            ([c1, c2], .failed ⟨"failed to create the IAM role: %v", [.sdk err]⟩)
          else
            ([c1, c2],
              .failed ⟨"role %q already exists, delete it manually to recreate", [.str g.role]⟩)
        | none => attach

/-- The `cfg.Region` of lines 80-83: set only for a non-empty region. -/
def cfgRegion (g : Globals) : Option String :=
  if g.region ≠ "" then some g.region else none

/-- Lines 80-92 of `main`: the session, `createRole` and the final log line.
A panic ends the process with exit code 2. -/
def provision (w : World) (calls : List Call) (g : Globals) : Run :=
  let c0 := calls ++ [Call.NewSession (cfgRegion g)]
  match w.NewSession (cfgRegion g) with
  | some err => fatalf c0 "Cannot create session: %v" (.sdk err)
  | none =>
    match createRole w g with
    | (cs, .failed e) => fatalf (c0 ++ cs) "Cannot create IAM role: %v" (.err e)
    | (cs, .nilDeref) => { calls := c0 ++ cs, stdout := [], log := [], exit := 2 }
    | (cs, .ok) =>
      { calls := c0 ++ cs, stdout := [],
        log := [⟨"Role %q is created.", .str g.role⟩], exit := 0 }

/-- The function `main` (lines 50-93).  `flag.Usage` is `usageText(0)`. -/
def main (w : World) (cl : CommandLine) : Run :=
  match cl with
  | .usage => usageText 0
  | .flags f =>
    match resolve w f.parse with
    | .exit r => r
    | .proceed calls g => provision w calls g

/-! ## Sample data for the concrete checks -/

/-- An SDK in which every call succeeds, with a fixed issuer and region. -/
def calmWorld (issuer : String) : World where
  NewSessionWithOptions := .ok (some "us-east-1")
  NewSession := fun _ => none
  DescribeCluster := fun _ => .ok (some issuer)
  CreateRole := fun _ _ _ => none
  AttachRolePolicy := fun _ _ => none

/-- The flags `-account=123456789012 -cluster=my-cluster -region=us-east-1`. -/
def sampleFlags : Flags where
  account := some "123456789012"
  cluster := some "my-cluster"
  region := some "us-east-1"
  namespace_ := none
  serviceAccount := none
  role := none

/-- The package variables that `sampleFlags` resolve to. -/
def sampleGlobals : Globals where
  account := "123456789012"
  cluster := "my-cluster"
  region := "us-east-1"
  namespace_ := "prometheus"
  serviceAccount := "prometheus"
  role := "EKS-AMP-ServiceAccount-us-east-1-my-cluster-prometheus-prometheus"

/-- The issuer of the sample cluster. -/
def sampleIssuer : String := "https://oidc.eks.us-east-1.amazonaws.com/id/EXAMPLE"

/-- The transformation of the issuer as the specification words it: the exact
literal prefix is removed when the issuer starts with it, and the issuer is
unchanged otherwise. -/
def stripSchemePrefix (issuer : String) : String :=
  if "https://".data <+: issuer.data then String.mk (issuer.data.drop 8) else issuer

/-- An SDK whose role creation reports that the role exists already. -/
def existingRoleWorld : World where
  NewSessionWithOptions := .ok (some "us-east-1")
  NewSession := fun _ => none
  DescribeCluster := fun _ => .ok (some sampleIssuer)
  CreateRole := fun _ _ _ => some ⟨some "EntityAlreadyExists", "EntityAlreadyExists: role exists"⟩
  AttachRolePolicy := fun _ _ => none

/-- An SDK whose role creation fails with an error that is not an
`awserr.Error`, all other calls succeeding. -/
def plainErrorWorld : World where
  NewSessionWithOptions := .ok (some "us-east-1")
  NewSession := fun _ => none
  DescribeCluster := fun _ => .ok (some sampleIssuer)
  CreateRole := fun _ _ _ => some ⟨none, "connection reset by peer"⟩
  AttachRolePolicy := fun _ _ => none

/-- The flags `-account=123456789012 -cluster=my-cluster -region=us-east-1
-namespace=`: the namespace is given, as the empty string. -/
def emptyNamespaceFlags : Flags where
  account := some "123456789012"
  cluster := some "my-cluster"
  region := some "us-east-1"
  namespace_ := some ""
  serviceAccount := none
  role := none

/-- The flags `-account=123456789012 -cluster=my-cluster`, with no region. -/
def noRegionFlags : Flags where
  account := some "123456789012"
  cluster := some "my-cluster"
  region := none
  namespace_ := none
  serviceAccount := none
  role := none

/-- The error with which the SDK refuses a request when no region is set. -/
def missingRegion : SdkError :=
  ⟨some "MissingRegion", "MissingRegion: could not find region configuration"⟩

/-- An SDK without any configured region: the ambient session has a region
pointer to the empty string, sessions are created, and every request is
refused with `MissingRegion` before it is sent. -/
def missingRegionWorld : World where
  NewSessionWithOptions := .ok (some "")
  NewSession := fun _ => none
  DescribeCluster := fun _ => .error missingRegion
  CreateRole := fun _ _ _ => some missingRegion
  AttachRolePolicy := fun _ _ => some missingRegion

/-! ## The expected text of the trust document -/

/-- The text of the trust document for given values, line by line. -/
def trustDocOf (account namespace_ serviceAccount oidc : String) : String :=
  "\x7b\n" ++
  "\t\"Version\": \"2012-10-17\",\n" ++
  "\t\"Statement\": [\n" ++
  "\t\t\x7b\n" ++
  "\t\t\t\"Effect\":\"Allow\",\n" ++
  "\t\t\t\"Principal\":\x7b\n" ++
  "\t\t\t\t\"Federated\": \"" ++ ("arn:aws:iam::" ++ account ++ ":oidc-provider/" ++ oidc) ++ "\"\n" ++
  "\t\t\t\x7d,\n" ++
  "\t\t\t\"Action\":\"sts:AssumeRoleWithWebIdentity\",\n" ++
  "\t\t\t\"Condition\":\x7b\n" ++
  "\t\t\t\t\"StringEquals\": \x7b\n" ++
  "\t\t\t\t\t\"" ++ (oidc ++ ":sub") ++ "\": \"" ++
    ("system:serviceaccount:" ++ namespace_ ++ ":" ++ serviceAccount) ++ "\"\n" ++
  "\t\t\t\t\x7d\n" ++
  "\t\t\t\x7d\n" ++
  "\t\t\x7d\n" ++
  "\t]\n" ++
  "\x7d"

/-! ## Auxiliary lemmas -/

set_option maxRecDepth 100000 in
/-- The template of the source parses, into eleven nodes. -/
theorem trustDocTmpl_nodes : trustDocTmpl = .ok
    [ Node.text ("\x7b\n\t\"Version\": \"2012-10-17\",\n\t\"Statement\": [\n\t\t\x7b\n" ++
        "\t\t\t\"Effect\":\"Allow\",\n\t\t\t\"Principal\":\x7b\n" ++
        "\t\t\t\t\"Federated\": \"arn:aws:iam::"),
      Node.field "Account",
      Node.text ":oidc-provider/",
      Node.field "OIDC",
      Node.text ("\"\n\t\t\t\x7d,\n\t\t\t\"Action\":\"sts:AssumeRoleWithWebIdentity\",\n" ++
        "\t\t\t\"Condition\":\x7b\n\t\t\t\t\"StringEquals\": \x7b\n\t\t\t\t\t\""),
      Node.field "OIDC",
      Node.text ":sub\": \"system:serviceaccount:",
      Node.field "Namespace",
      Node.text ":",
      Node.field "ServiceAccount",
      Node.text "\"\n\t\t\t\t\x7d\n\t\t\t\x7d\n\t\t\x7d\n\t]\n\x7d" ] := by
  rfl

theorem renderTrustDoc_eq (v : trustDocVars) :
    renderTrustDoc v = .ok (trustDocOf v.Account v.Namespace v.ServiceAccount v.OIDC) := by
  unfold renderTrustDoc trustDocOf
  rw [trustDocTmpl_nodes]
  simp [Execute, trustDocVars.lookup, String.append_assoc]
  rfl

/-- What a run of `resolve` that goes on has done. -/
theorem resolve_proceed {w : World} {g0 g : Globals} {cs : List Call}
    (h : resolve w g0 = .proceed cs g) :
    g0.account ≠ "" ∧ g0.cluster ≠ "" ∧
    ∃ reg, g = applyNameDefaults { g0 with region := reg } ∧
      ((g0.region ≠ "" ∧ reg = g0.region ∧ cs = []) ∨
       (g0.region = "" ∧ w.NewSessionWithOptions = .ok (some reg) ∧
        cs = [Call.NewSessionWithOptions])) := by
  unfold resolve defaultRegion at h
  by_cases hreq : g0.account = "" ∨ g0.cluster = ""
  · rw [if_pos hreq] at h
    cases h
  · rw [if_neg hreq] at h
    refine ⟨fun ha => hreq (Or.inl ha), fun hc => hreq (Or.inr hc), ?_⟩
    by_cases hreg : g0.region = ""
    · rw [if_pos hreg] at h
      cases hw : w.NewSessionWithOptions with
      | error e => rw [hw] at h; cases h
      | ok o =>
        cases o with
        | none => rw [hw] at h; cases h
        | some reg =>
          rw [hw] at h
          cases h
          exact ⟨reg, rfl, Or.inr ⟨hreg, rfl, rfl⟩⟩
    · rw [if_neg hreg] at h
      cases h
      exact ⟨g0.region, rfl, Or.inl ⟨hreg, rfl, rfl⟩⟩

theorem applyNameDefaults_fields (g : Globals) :
    (applyNameDefaults g).account = g.account ∧
    (applyNameDefaults g).cluster = g.cluster ∧
    (applyNameDefaults g).region = g.region ∧
    (applyNameDefaults g).namespace_ = g.namespace_ ∧
    (applyNameDefaults g).serviceAccount =
      (if g.serviceAccount = "" then g.namespace_ else g.serviceAccount) ∧
    (applyNameDefaults g).role =
      (if g.role = "" then
        sprintfDashed defaultIAMRole g.region g.cluster g.namespace_
          (if g.serviceAccount = "" then g.namespace_ else g.serviceAccount)
       else g.role) := by
  unfold applyNameDefaults
  by_cases hs : g.serviceAccount = "" <;> by_cases hr : g.role = "" <;> simp [hs, hr]

/-- Passing over the rest of a matched occurrence. -/
theorem replaceScan_skip (old new : List Char) (xs rest : List Char) :
    replaceScan old new xs.length (xs ++ rest) = replaceScan old new 0 rest := by
  induction xs with
  | nil => rfl
  | cons x xs ih => simpa [replaceScan] using ih

/-- An occurrence at the front is replaced and the scan goes on behind it. -/
theorem replaceScan_match (old new : List Char) (c : Char) (cs rest : List Char)
    (h : old = c :: cs) :
    replaceScan old new 0 (old ++ rest) = new ++ replaceScan old new 0 rest := by
  subst h
  have hp : (c :: cs).isPrefixOf (c :: (cs ++ rest)) = true := by
    have : (c :: cs) <+: (c :: cs) ++ rest := List.prefix_append _ _
    exact List.isPrefixOf_iff_prefix.mpr this
  have hs := replaceScan_skip (c :: cs) new cs rest
  show replaceScan (c :: cs) new 0 (c :: (cs ++ rest)) = _
  rw [replaceScan, if_pos hp]
  show new ++ replaceScan (c :: cs) new cs.length (cs ++ rest) = _
  rw [hs]

/-- A character that does not start an occurrence is copied. -/
theorem replaceScan_copy (old new : List Char) (c : Char) (cs : List Char)
    (h : ¬ old <+: c :: cs) :
    replaceScan old new 0 (c :: cs) = c :: replaceScan old new 0 cs := by
  have hp : old.isPrefixOf (c :: cs) = false := by
    cases hb : old.isPrefixOf (c :: cs) with
    | false => rfl
    | true => exact absurd (List.isPrefixOf_iff_prefix.mp hb) h
  simp [replaceScan, hp]

/-- A string without an occurrence of `old` is left as it is. -/
theorem replaceScan_absent (old new : List Char) (s : List Char)
    (h : ¬ old <:+: s) : replaceScan old new 0 s = s := by
  induction s with
  | nil => rfl
  | cons c cs ih =>
    have h1 : ¬ old <+: c :: cs := fun hp => h hp.isInfix
    have h2 : ¬ old <:+: cs := fun hi => h (hi.trans (List.suffix_cons c cs).isInfix)
    rw [replaceScan_copy old new c cs h1, ih h2]

/-- Two texts cut at their first dash agree piece by piece. -/
theorem dash_split {a b x y : List Char} (ha : '-' ∉ a) (hb : '-' ∉ b)
    (h : a ++ '-' :: x = b ++ '-' :: y) : a = b ∧ x = y := by
  induction a generalizing b with
  | nil =>
    cases b with
    | nil => simpa using h
    | cons d b =>
      simp only [List.nil_append, List.cons_append, List.cons.injEq] at h
      exact absurd (h.1 ▸ List.mem_cons_self _ _) hb
  | cons c a ih =>
    cases b with
    | nil =>
      simp only [List.nil_append, List.cons_append, List.cons.injEq] at h
      exact absurd (h.1 ▸ List.mem_cons_self _ _) ha
    | cons d b =>
      simp only [List.cons_append, List.cons.injEq] at h
      have ha' : '-' ∉ a := fun hm => ha (List.mem_cons_of_mem _ hm)
      have hb' : '-' ∉ b := fun hm => hb (List.mem_cons_of_mem _ hm)
      obtain ⟨h1, h2⟩ := ih ha' hb' h.2
      exact ⟨by rw [h.1, h1], h2⟩

theorem sprintfDashed_data (a b c d e : String) :
    (sprintfDashed a b c d e).data =
      a.data ++ '-' :: (b.data ++ '-' :: (c.data ++ '-' :: (d.data ++ '-' :: e.data))) := by
  simp [sprintfDashed, String.data_append]

/-- The first occurrence of `old` is replaced, what stands before it is kept,
and the scan goes on behind it. -/
theorem replaceScan_first (old new : List Char) (hne : old ≠ []) (pre rest : List Char)
    (h : ¬ old <:+: pre ++ old.dropLast) :
    replaceScan old new 0 (pre ++ (old ++ rest)) = pre ++ (new ++ replaceScan old new 0 rest) := by
  induction pre with
  | nil =>
    cases old with
    | nil => exact absurd rfl hne
    | cons c cs => exact replaceScan_match (c :: cs) new c cs rest rfl
  | cons p ps ih =>
    have hsplit : p :: ps ++ (old ++ rest) =
        (p :: ps ++ old.dropLast) ++ ([old.getLast hne] ++ rest) := by
      conv_lhs => rw [← List.dropLast_append_getLast hne]
      simp
    have hlen : old.length ≤ (p :: ps ++ old.dropLast).length := by
      simp only [List.length_append, List.length_cons, List.length_dropLast]
      have : 0 < old.length := List.length_pos.mpr hne
      omega
    have h1 : ¬ old <+: p :: (ps ++ (old ++ rest)) := by
      intro hp
      have hp' : old <+: (p :: ps ++ old.dropLast) ++ ([old.getLast hne] ++ rest) := by
        rw [← hsplit]; exact hp
      have := List.prefix_of_prefix_length_le hp' (List.prefix_append _ _) hlen
      exact h this.isInfix
    have h2 : ¬ old <:+: ps ++ old.dropLast := fun hi =>
      h (hi.trans (List.suffix_cons p (ps ++ old.dropLast)).isInfix)
    show replaceScan old new 0 (p :: (ps ++ (old ++ rest))) = _
    rw [replaceScan_copy old new p _ h1, ih h2]
    rfl

theorem createRole_describe_ok (w : World) (g : Globals) (issuer : String)
    (hd : w.DescribeCluster g.cluster = .ok (some issuer)) :
    createRole w g =
      (let doc := trustDocOf g.account g.namespace_ g.serviceAccount (ReplaceAll issuer "https://" "")
       let c1 := Call.DescribeCluster g.cluster
       let c2 := Call.CreateRole g.role doc defaultIAMRoleDescription
       let c3 := Call.AttachRolePolicy ampRemoteWritePolicy g.role
       let attach : List Call × Outcome :=
         match w.AttachRolePolicy ampRemoteWritePolicy g.role with
         | some err =>
           ([c1, c2, c3], .failed ⟨"failed to attach the policy to the role: %v", [.sdk err]⟩)
         | none => ([c1, c2, c3], .ok)
       match w.CreateRole g.role doc defaultIAMRoleDescription with
       | none => attach
       | some err =>
         match err.awsCode with
         | some code =>
           if code ≠ ErrCodeEntityAlreadyExistsException then
             ([c1, c2], .failed ⟨"failed to create the IAM role: %v", [.sdk err]⟩)
           else
             ([c1, c2],
               .failed ⟨"role %q already exists, delete it manually to recreate", [.str g.role]⟩)
         | none => attach) := by
  unfold createRole
  simp only [hd, renderTrustDoc_eq]
  rfl

/-! ## The claims -/

/-- C1: for every four strings, rendering the trust document succeeds and
gives the template text with the values put in unchanged: the `Federated`
principal is `arn:aws:iam::<account>:oidc-provider/<oidc>`, the condition key
is `<oidc>:sub` and its value `system:serviceaccount:<namespace>:<service
account>`. -/
theorem trustDoc_rendered_verbatim (account namespace_ serviceAccount oidc : String) :
    renderTrustDoc ⟨account, namespace_, serviceAccount, oidc⟩ = .ok (
      "\x7b\n" ++
      "\t\"Version\": \"2012-10-17\",\n" ++
      "\t\"Statement\": [\n" ++
      "\t\t\x7b\n" ++
      "\t\t\t\"Effect\":\"Allow\",\n" ++
      "\t\t\t\"Principal\":\x7b\n" ++
      "\t\t\t\t\"Federated\": \"" ++
        ("arn:aws:iam::" ++ account ++ ":oidc-provider/" ++ oidc) ++ "\"\n" ++
      "\t\t\t\x7d,\n" ++
      "\t\t\t\"Action\":\"sts:AssumeRoleWithWebIdentity\",\n" ++
      "\t\t\t\"Condition\":\x7b\n" ++
      "\t\t\t\t\"StringEquals\": \x7b\n" ++
      "\t\t\t\t\t\"" ++ (oidc ++ ":sub") ++ "\": \"" ++
        ("system:serviceaccount:" ++ namespace_ ++ ":" ++ serviceAccount) ++ "\"\n" ++
      "\t\t\t\t\x7d\n" ++
      "\t\t\t\x7d\n" ++
      "\t\t\x7d\n" ++
      "\t]\n" ++
      "\x7d") :=
  renderTrustDoc_eq ⟨account, namespace_, serviceAccount, oidc⟩

/-- C2: when the cluster description, the role creation and the policy
attachment all succeed, `createRole` returns a nil error after exactly three
calls in order: `DescribeCluster` with the cluster name, `CreateRole` with the
role name, the rendered trust document and the fixed description, and
`AttachRolePolicy` with the fixed policy ARN and the same role name; `main`
then logs that the role is created and exits with code 0. -/
theorem createRole_success (w : World) (g : Globals) (issuer : String)
    (hd : w.DescribeCluster g.cluster = .ok (some issuer))
    (hc : w.CreateRole g.role
        (trustDocOf g.account g.namespace_ g.serviceAccount (ReplaceAll issuer "https://" ""))
        "IAM role to be used by a K8s service account with write access to AMP" = none)
    (ha : w.AttachRolePolicy "arn:aws:iam::aws:policy/AmazonPrometheusRemoteWriteAccess"
        g.role = none) :
    renderTrustDoc ⟨g.account, g.namespace_, g.serviceAccount, ReplaceAll issuer "https://" ""⟩ =
      .ok (trustDocOf g.account g.namespace_ g.serviceAccount (ReplaceAll issuer "https://" "")) ∧
    createRole w g =
      ([Call.DescribeCluster g.cluster,
        Call.CreateRole g.role
          (trustDocOf g.account g.namespace_ g.serviceAccount (ReplaceAll issuer "https://" ""))
          "IAM role to be used by a K8s service account with write access to AMP",
        Call.AttachRolePolicy "arn:aws:iam::aws:policy/AmazonPrometheusRemoteWriteAccess" g.role],
       Outcome.ok) ∧
    ∀ (f : Flags) (cs : List Call), resolve w f.parse = .proceed cs g →
      w.NewSession (cfgRegion g) = none →
      main w (.flags f) =
        { calls := cs ++ [Call.NewSession (cfgRegion g),
            Call.DescribeCluster g.cluster,
            Call.CreateRole g.role
              (trustDocOf g.account g.namespace_ g.serviceAccount
                (ReplaceAll issuer "https://" ""))
              "IAM role to be used by a K8s service account with write access to AMP",
            Call.AttachRolePolicy "arn:aws:iam::aws:policy/AmazonPrometheusRemoteWriteAccess"
              g.role],
          stdout := [],
          log := [⟨"Role %q is created.", .str g.role⟩],
          exit := 0 } := by
  have hcr : createRole w g =
      ([Call.DescribeCluster g.cluster,
        Call.CreateRole g.role
          (trustDocOf g.account g.namespace_ g.serviceAccount (ReplaceAll issuer "https://" ""))
          "IAM role to be used by a K8s service account with write access to AMP",
        Call.AttachRolePolicy "arn:aws:iam::aws:policy/AmazonPrometheusRemoteWriteAccess" g.role],
       Outcome.ok) := by
    rw [createRole_describe_ok w g issuer hd]
    have hc' : w.CreateRole g.role
        (trustDocOf g.account g.namespace_ g.serviceAccount (ReplaceAll issuer "https://" ""))
        defaultIAMRoleDescription = none := hc
    have ha' : w.AttachRolePolicy ampRemoteWritePolicy g.role = none := ha
    simp only [hc', ha']
    rfl
  refine ⟨renderTrustDoc_eq _, hcr, ?_⟩
  intro f cs hres hs
  simp only [main, hres, provision, hs, hcr]
  simp

theorem createRole_success_witness :
    (calmWorld sampleIssuer).DescribeCluster sampleGlobals.cluster = .ok (some sampleIssuer) ∧
    createRole (calmWorld sampleIssuer) sampleGlobals =
      ([Call.DescribeCluster "my-cluster",
        Call.CreateRole "EKS-AMP-ServiceAccount-us-east-1-my-cluster-prometheus-prometheus"
          (trustDocOf "123456789012" "prometheus" "prometheus"
            "oidc.eks.us-east-1.amazonaws.com/id/EXAMPLE")
          "IAM role to be used by a K8s service account with write access to AMP",
        Call.AttachRolePolicy "arn:aws:iam::aws:policy/AmazonPrometheusRemoteWriteAccess"
          "EKS-AMP-ServiceAccount-us-east-1-my-cluster-prometheus-prometheus"],
       Outcome.ok) :=
  ⟨rfl, (createRole_success (calmWorld sampleIssuer) sampleGlobals sampleIssuer rfl rfl rfl).2.1⟩

/-- C3: when `main` goes on past the defaults, the role name is
`EKS-AMP-ServiceAccount-<region>-<cluster>-<namespace>-<service account>`
(over the resolved values) if no role name, or an empty one, was given, and
the given role name otherwise. -/
theorem role_name_resolved (w : World) (f : Flags) (cs : List Call) (g : Globals)
    (h : resolve w f.parse = .proceed cs g) :
    (f.role.getD "" = "" →
      g.role = "EKS-AMP-ServiceAccount-" ++ g.region ++ "-" ++ g.cluster ++ "-" ++
        g.namespace_ ++ "-" ++ g.serviceAccount) ∧
    (f.role.getD "" ≠ "" → g.role = f.role.getD "") := by
  obtain ⟨_, _, reg, hg, _⟩ := resolve_proceed h
  obtain ⟨_, hcl, hrg, hns, hsa, hro⟩ := applyNameDefaults_fields { f.parse with region := reg }
  rw [← hg] at hcl hrg hns hsa hro
  constructor
  · intro hr
    have hr' : f.parse.role = "" := hr
    rw [hro, if_pos hr', hsa, hrg, hcl, hns]
    rfl
  · intro hr
    have hr' : ¬ f.parse.role = "" := hr
    rw [hro, if_neg hr']
    rfl

theorem role_name_resolved_witness :
    resolve (calmWorld sampleIssuer) sampleFlags.parse = .proceed [] sampleGlobals ∧
    (sampleFlags.role.getD "" = "" →
      sampleGlobals.role = "EKS-AMP-ServiceAccount-" ++ sampleGlobals.region ++ "-" ++
        sampleGlobals.cluster ++ "-" ++ sampleGlobals.namespace_ ++ "-" ++
        sampleGlobals.serviceAccount) :=
  ⟨by decide,
   (role_name_resolved (calmWorld sampleIssuer) sampleFlags [] sampleGlobals (by decide)).1⟩

/-- C4: when `main` goes on past the defaults, the namespace is the given one,
or `prometheus` when the flag is absent; a service account that is absent or
empty becomes that namespace, and a non-empty one is kept. -/
theorem service_account_resolved (w : World) (f : Flags) (cs : List Call) (g : Globals)
    (h : resolve w f.parse = .proceed cs g) :
    g.namespace_ = f.namespace_.getD "prometheus" ∧
    (f.serviceAccount = none ∨ f.serviceAccount = some "" → g.serviceAccount = g.namespace_) ∧
    (∀ sa, f.serviceAccount = some sa → sa ≠ "" → g.serviceAccount = sa) := by
  obtain ⟨_, _, reg, hg, _⟩ := resolve_proceed h
  obtain ⟨_, _, _, hns, hsa, _⟩ := applyNameDefaults_fields { f.parse with region := reg }
  rw [← hg] at hns hsa
  refine ⟨hns, ?_, ?_⟩
  · intro hs
    have hs' : f.parse.serviceAccount = "" := by
      rcases hs with hs | hs <;> simp [Flags.parse, hs]
    rw [hsa, if_pos hs', hns]
  · intro sa hs hne
    have hs' : f.parse.serviceAccount = sa := by simp [Flags.parse, hs]
    have hne' : ¬ f.parse.serviceAccount = "" := by rw [hs']; exact hne
    rw [hsa, if_neg hne']
    exact hs'

theorem service_account_resolved_witness :
    resolve (calmWorld sampleIssuer) sampleFlags.parse = .proceed [] sampleGlobals ∧
    sampleGlobals.namespace_ = "prometheus" ∧
    (sampleFlags.serviceAccount = none ∨ sampleFlags.serviceAccount = some "" →
      sampleGlobals.serviceAccount = sampleGlobals.namespace_) :=
  ⟨by decide,
   (service_account_resolved (calmWorld sampleIssuer) sampleFlags [] sampleGlobals
      (by decide)).1,
   (service_account_resolved (calmWorld sampleIssuer) sampleFlags [] sampleGlobals
      (by decide)).2.1⟩

/-- C5: when the account id or the cluster name is the empty string after
flag parsing, the program prints the help text and exits with code 1, and the
trace of calls is empty: no session, no `DescribeCluster`, no `CreateRole`,
no `AttachRolePolicy`. -/
theorem missing_required_flag (w : World) (f : Flags)
    (h : f.account.getD "" = "" ∨ f.cluster.getD "" = "") :
    main w (.flags f) = { calls := [], stdout := [helpText], log := [], exit := 1 } := by
  have h' : f.parse.account = "" ∨ f.parse.cluster = "" := h
  simp only [main, resolve, if_pos h']
  rfl

theorem missing_required_flag_witness :
    (({ sampleFlags with account := none } : Flags).account.getD "" = "" ∨
      ({ sampleFlags with account := none } : Flags).cluster.getD "" = "") ∧
    main (calmWorld sampleIssuer) (.flags { sampleFlags with account := none }) =
      { calls := [], stdout := [helpText], log := [], exit := 1 } :=
  ⟨Or.inl rfl,
   missing_required_flag (calmWorld sampleIssuer) { sampleFlags with account := none }
     (Or.inl rfl)⟩

/-- C6: when the role creation fails with an AWS error whose code is
`EntityAlreadyExists`, `createRole` returns the error `role %q already exists,
delete it manually to recreate` over the role name, after `DescribeCluster`
and `CreateRole` only: `AttachRolePolicy` is not called, and `main` logs the
error and exits with code 1. -/
theorem createRole_already_exists (w : World) (g : Globals) (issuer : String) (err : SdkError)
    (hd : w.DescribeCluster g.cluster = .ok (some issuer))
    (hc : w.CreateRole g.role
        (trustDocOf g.account g.namespace_ g.serviceAccount (ReplaceAll issuer "https://" ""))
        "IAM role to be used by a K8s service account with write access to AMP" = some err)
    (hcode : err.awsCode = some ErrCodeEntityAlreadyExistsException) :
    createRole w g =
      ([Call.DescribeCluster g.cluster,
        Call.CreateRole g.role
          (trustDocOf g.account g.namespace_ g.serviceAccount (ReplaceAll issuer "https://" ""))
          "IAM role to be used by a K8s service account with write access to AMP"],
       Outcome.failed
        ⟨"role %q already exists, delete it manually to recreate", [.str g.role]⟩) ∧
    (∀ arn name, Call.AttachRolePolicy arn name ∉ (createRole w g).1) ∧
    ∀ (f : Flags) (cs : List Call), resolve w f.parse = .proceed cs g →
      w.NewSession (cfgRegion g) = none →
      (∀ arn name, Call.AttachRolePolicy arn name ∉ (main w (.flags f)).calls) ∧
      (main w (.flags f)).log = [⟨"Cannot create IAM role: %v",
        .err ⟨"role %q already exists, delete it manually to recreate", [.str g.role]⟩⟩] ∧
      (main w (.flags f)).exit = 1 := by
  have hcr : createRole w g =
      ([Call.DescribeCluster g.cluster,
        Call.CreateRole g.role
          (trustDocOf g.account g.namespace_ g.serviceAccount (ReplaceAll issuer "https://" ""))
          "IAM role to be used by a K8s service account with write access to AMP"],
       Outcome.failed
        ⟨"role %q already exists, delete it manually to recreate", [.str g.role]⟩) := by
    rw [createRole_describe_ok w g issuer hd]
    have hc' : w.CreateRole g.role
        (trustDocOf g.account g.namespace_ g.serviceAccount (ReplaceAll issuer "https://" ""))
        defaultIAMRoleDescription = some err := hc
    simp only [hc', hcode]
    simp
    rfl
  refine ⟨hcr, ?_, ?_⟩
  · intro arn name
    rw [hcr]
    simp
  · intro f cs hres hs
    obtain ⟨_, _, reg, _, hcs⟩ := resolve_proceed hres
    have hmain : main w (.flags f) =
        fatalf (cs ++ [Call.NewSession (cfgRegion g)] ++
            [Call.DescribeCluster g.cluster,
             Call.CreateRole g.role
              (trustDocOf g.account g.namespace_ g.serviceAccount
                (ReplaceAll issuer "https://" ""))
              "IAM role to be used by a K8s service account with write access to AMP"])
          "Cannot create IAM role: %v"
          (.err ⟨"role %q already exists, delete it manually to recreate", [.str g.role]⟩) := by
      simp only [main, hres, provision, hs, hcr]
    rw [hmain]
    refine ⟨?_, rfl, rfl⟩
    intro arn name
    rcases hcs with ⟨_, _, hcs⟩ | ⟨_, _, hcs⟩ <;> simp [fatalf, hcs]

theorem createRole_already_exists_witness :
    existingRoleWorld.DescribeCluster sampleGlobals.cluster = .ok (some sampleIssuer) ∧
    createRole existingRoleWorld sampleGlobals =
      ([Call.DescribeCluster "my-cluster",
        Call.CreateRole "EKS-AMP-ServiceAccount-us-east-1-my-cluster-prometheus-prometheus"
          (trustDocOf "123456789012" "prometheus" "prometheus"
            "oidc.eks.us-east-1.amazonaws.com/id/EXAMPLE")
          "IAM role to be used by a K8s service account with write access to AMP"],
       Outcome.failed
        ⟨"role %q already exists, delete it manually to recreate",
          [.str "EKS-AMP-ServiceAccount-us-east-1-my-cluster-prometheus-prometheus"]⟩) :=
  ⟨rfl, (createRole_already_exists existingRoleWorld sampleGlobals sampleIssuer
      ⟨some "EntityAlreadyExists", "EntityAlreadyExists: role exists"⟩ rfl rfl rfl).1⟩

/-- A failed role creation with an AWS error code other than
`EntityAlreadyExists` is wrapped, and the policy is not attached. -/
theorem createRole_other_aws_code (w : World) (g : Globals) (issuer code : String)
    (err : SdkError)
    (hd : w.DescribeCluster g.cluster = .ok (some issuer))
    (hc : w.CreateRole g.role
        (trustDocOf g.account g.namespace_ g.serviceAccount (ReplaceAll issuer "https://" ""))
        defaultIAMRoleDescription = some err)
    (hcode : err.awsCode = some code) (hne : code ≠ ErrCodeEntityAlreadyExistsException) :
    createRole w g =
      ([Call.DescribeCluster g.cluster,
        Call.CreateRole g.role
          (trustDocOf g.account g.namespace_ g.serviceAccount (ReplaceAll issuer "https://" ""))
          defaultIAMRoleDescription],
       Outcome.failed ⟨"failed to create the IAM role: %v", [.sdk err]⟩) := by
  rw [createRole_describe_ok w g issuer hd]
  simp only [hc, hcode]
  simp [hne]

set_option maxRecDepth 100000 in
/-- C7, at the failing input: the role creation fails with an error that is
not an `awserr.Error`; `createRole` goes on to attach the policy and returns a
nil error, and `main` logs that the role is created and exits with code 0. -/
theorem createRole_plain_error_ignored :
    plainErrorWorld.CreateRole sampleGlobals.role
        (trustDocOf "123456789012" "prometheus" "prometheus"
          "oidc.eks.us-east-1.amazonaws.com/id/EXAMPLE")
        defaultIAMRoleDescription = some ⟨none, "connection reset by peer"⟩ ∧
    createRole plainErrorWorld sampleGlobals =
      ([Call.DescribeCluster "my-cluster",
        Call.CreateRole "EKS-AMP-ServiceAccount-us-east-1-my-cluster-prometheus-prometheus"
          (trustDocOf "123456789012" "prometheus" "prometheus"
            "oidc.eks.us-east-1.amazonaws.com/id/EXAMPLE")
          "IAM role to be used by a K8s service account with write access to AMP",
        Call.AttachRolePolicy "arn:aws:iam::aws:policy/AmazonPrometheusRemoteWriteAccess"
          "EKS-AMP-ServiceAccount-us-east-1-my-cluster-prometheus-prometheus"],
       Outcome.ok) ∧
    (main plainErrorWorld (.flags sampleFlags)).log =
      [⟨"Role %q is created.",
        .str "EKS-AMP-ServiceAccount-us-east-1-my-cluster-prometheus-prometheus"⟩] ∧
    (main plainErrorWorld (.flags sampleFlags)).exit = 0 := by
  refine ⟨rfl, ?_, ?_, ?_⟩
  · rw [createRole_describe_ok plainErrorWorld sampleGlobals sampleIssuer rfl]
    rfl
  · rfl
  · rfl

/-- C8 as stated fails: for the issuer `https://a/https://b` the host put into
the trust document is `a/b`, while removing the leading prefix only gives
`a/https://b`. -/
theorem oidc_host_not_prefix_strip :
    (trustDocVarsOf sampleGlobals "https://a/https://b").OIDC = "a/b" ∧
    stripSchemePrefix "https://a/https://b" = "a/https://b" ∧
    (trustDocVarsOf sampleGlobals "https://a/https://b").OIDC ≠
      stripSchemePrefix "https://a/https://b" := by
  decide

/-- C8, amended: the host put into the trust document is the issuer with
every occurrence of `https://` removed, found from the left without overlap.
When no occurrence starts inside `pre`, the host of `pre ++ "https://" ++ rest`
is `pre` followed by the host of `rest`; an issuer without an occurrence is
unchanged; so an issuer that is `https://` followed by a text without an
occurrence gives that text. -/
theorem oidc_host_occurrences_removed (g : Globals) (pre rest : String) :
    (¬ "https://".data <:+: (pre ++ "https:/").data →
      (trustDocVarsOf g (pre ++ "https://" ++ rest)).OIDC =
        pre ++ (trustDocVarsOf g rest).OIDC) ∧
    (¬ "https://".data <:+: rest.data → (trustDocVarsOf g rest).OIDC = rest) ∧
    (¬ "https://".data <:+: rest.data →
      (trustDocVarsOf g ("https://" ++ rest)).OIDC = rest) := by
  have hne : "https://".data ≠ [] := by decide
  have habsent : ¬ "https://".data <:+: rest.data → (trustDocVarsOf g rest).OIDC = rest := by
    intro h
    show ReplaceAll rest "https://" "" = rest
    unfold ReplaceAll
    rw [if_neg hne, replaceScan_absent _ _ _ h]
  have hfirst : ∀ p : String, ¬ "https://".data <:+: (p ++ "https:/").data →
      (trustDocVarsOf g (p ++ "https://" ++ rest)).OIDC = p ++ (trustDocVarsOf g rest).OIDC := by
    intro p h
    show ReplaceAll (p ++ "https://" ++ rest) "https://" "" = p ++ ReplaceAll rest "https://" ""
    unfold ReplaceAll
    rw [if_neg hne]
    apply String.ext
    have h' : ¬ "https://".data <:+: p.data ++ ("https://".data).dropLast := by
      rw [String.data_append] at h
      exact h
    have := replaceScan_first "https://".data "".data hne p.data rest.data h'
    simp only [String.data_append, List.append_assoc]
    rw [this]
    rfl
  refine ⟨hfirst pre, habsent, ?_⟩
  intro h
  have h0 := hfirst "" (by decide)
  have h1 : ("" : String) ++ "https://" ++ rest = "https://" ++ rest := by
    apply String.ext; simp [String.data_append]
  rw [h1, habsent h] at h0
  rw [h0]
  apply String.ext; simp [String.data_append]

theorem oidc_host_occurrences_removed_witness :
    ¬ "https://".data <:+: ("oidc.eks.us-east-1.amazonaws.com/id/EXAMPLE" : String).data ∧
    (trustDocVarsOf sampleGlobals
      ("https://" ++ "oidc.eks.us-east-1.amazonaws.com/id/EXAMPLE")).OIDC =
      "oidc.eks.us-east-1.amazonaws.com/id/EXAMPLE" :=
  ⟨by decide,
   (oidc_host_occurrences_removed sampleGlobals ""
      "oidc.eks.us-east-1.amazonaws.com/id/EXAMPLE").2.2 (by decide)⟩

set_option maxRecDepth 100000 in
/-- C9 as stated fails.  With `-region=us-east-1 -namespace=` the
required-field check passes and the namespace and the service account are
empty when `DescribeCluster`, `CreateRole` and `AttachRolePolicy` are called.
With no `-region` and an ambient region that is the empty string, the check
passes and the region is empty when `DescribeCluster` is called (the request
is then refused and the program exits with code 1). -/
theorem empty_fields_reach_calls :
    (resolve (calmWorld sampleIssuer) emptyNamespaceFlags.parse =
      .proceed []
        { account := "123456789012", cluster := "my-cluster", region := "us-east-1",
          namespace_ := "", serviceAccount := "",
          role := "EKS-AMP-ServiceAccount-us-east-1-my-cluster--" } ∧
     main (calmWorld sampleIssuer) (.flags emptyNamespaceFlags) =
      { calls :=
          [Call.NewSession (some "us-east-1"), Call.DescribeCluster "my-cluster",
           Call.CreateRole "EKS-AMP-ServiceAccount-us-east-1-my-cluster--"
             (trustDocOf "123456789012" "" "" "oidc.eks.us-east-1.amazonaws.com/id/EXAMPLE")
             "IAM role to be used by a K8s service account with write access to AMP",
           Call.AttachRolePolicy "arn:aws:iam::aws:policy/AmazonPrometheusRemoteWriteAccess"
             "EKS-AMP-ServiceAccount-us-east-1-my-cluster--"],
        stdout := [],
        log := [⟨"Role %q is created.", .str "EKS-AMP-ServiceAccount-us-east-1-my-cluster--"⟩],
        exit := 0 }) ∧
    (resolve missingRegionWorld noRegionFlags.parse =
      .proceed [Call.NewSessionWithOptions]
        { account := "123456789012", cluster := "my-cluster", region := "",
          namespace_ := "prometheus", serviceAccount := "prometheus",
          role := "EKS-AMP-ServiceAccount--my-cluster-prometheus-prometheus" } ∧
     main missingRegionWorld (.flags noRegionFlags) =
      { calls :=
          [Call.NewSessionWithOptions, Call.NewSession none,
           Call.DescribeCluster "my-cluster"],
        stdout := [],
        log := [⟨"Cannot create IAM role: %v",
          .err ⟨"failed to find the EKS cluster: %v", [.sdk missingRegion]⟩⟩],
        exit := 1 }) := by
  refine ⟨⟨?_, ?_⟩, ⟨?_, ?_⟩⟩
  · decide
  · rfl
  · decide
  · rfl

/-- C9, amended: when the required-field check passes and `main` goes on, no
cluster or role call has been made yet, and the account, the cluster and the
role name are non-empty; the namespace is empty exactly when `-namespace` was
given as the empty string; the service account is empty exactly when
`-service-account` was absent or empty and `-namespace` was given as the
empty string; the region is empty exactly when `-region` was absent or empty
and the ambient region is the empty string. -/
theorem resolved_fields_nonempty (w : World) (f : Flags) (cs : List Call) (g : Globals)
    (h : resolve w f.parse = .proceed cs g) :
    (cs = [] ∨ cs = [Call.NewSessionWithOptions]) ∧
    g.account ≠ "" ∧ g.cluster ≠ "" ∧ g.role ≠ "" ∧
    (g.namespace_ = "" ↔ f.namespace_ = some "") ∧
    (g.serviceAccount = "" ↔
      (f.serviceAccount = none ∨ f.serviceAccount = some "") ∧ f.namespace_ = some "") ∧
    (g.region = "" ↔
      (f.region = none ∨ f.region = some "") ∧ w.NewSessionWithOptions = .ok (some "")) := by
  obtain ⟨hacc, hclu, reg, hg, hcs⟩ := resolve_proceed h
  obtain ⟨hac, hcl, hrg, hns, hsa, hro⟩ :=
    applyNameDefaults_fields { f.parse with region := reg }
  rw [← hg] at hac hcl hrg hns hsa hro
  have hnsiff : g.namespace_ = "" ↔ f.namespace_ = some "" := by
    rw [hns]
    show f.namespace_.getD defaultNamespace = "" ↔ _
    cases hn : f.namespace_ with
    | none => simp [defaultNamespace]
    | some v => simp
  have hopt : ∀ o : Option String, o.getD "" = "" ↔ (o = none ∨ o = some "") := by
    intro o
    cases o with
    | none => simp
    | some v => simp
  refine ⟨?_, ?_, ?_, ?_, hnsiff, ?_, ?_⟩
  · rcases hcs with ⟨_, _, hc⟩ | ⟨_, _, hc⟩
    · exact Or.inl hc
    · exact Or.inr hc
  · rw [hac]; exact hacc
  · rw [hcl]; exact hclu
  · rw [hro]
    split
    · intro he
      have hd := congrArg String.data he
      rw [sprintfDashed_data] at hd
      exact absurd hd (by simp [defaultIAMRole])
    · assumption
  · have hsa' : g.serviceAccount =
        if f.serviceAccount.getD "" = "" then g.namespace_ else f.serviceAccount.getD "" := by
      rw [hsa, hns]; rfl
    rw [← hopt f.serviceAccount, ← hnsiff, hsa']
    by_cases he : f.serviceAccount.getD "" = ""
    · rw [if_pos he]
      exact ⟨fun hn => ⟨he, hn⟩, fun hn => hn.2⟩
    · rw [if_neg he]
      exact ⟨fun hn => absurd hn he, fun hn => absurd hn.1 he⟩
  · rw [← hopt f.region, hrg]
    show reg = "" ↔ _
    rcases hcs with ⟨hne, hreg, _⟩ | ⟨he, hw, _⟩
    · have hne' : ¬ f.region.getD "" = "" := hne
      constructor
      · intro hr
        exact absurd (hreg ▸ hr) hne
      · intro hr
        exact absurd hr.1 hne'
    · have he' : f.region.getD "" = "" := he
      constructor
      · intro hr
        exact ⟨he', by rw [hw, hr]⟩
      · intro hr
        rw [hw] at hr
        have h1 := hr.2
        simp only [Except.ok.injEq, Option.some.injEq] at h1
        exact h1

theorem resolved_fields_nonempty_witness :
    resolve (calmWorld sampleIssuer) sampleFlags.parse = .proceed [] sampleGlobals ∧
    sampleGlobals.account ≠ "" ∧ sampleGlobals.cluster ≠ "" ∧ sampleGlobals.role ≠ "" ∧
    (sampleGlobals.serviceAccount = "" ↔
      (sampleFlags.serviceAccount = none ∨ sampleFlags.serviceAccount = some "") ∧
        sampleFlags.namespace_ = some "") :=
  ⟨by decide,
   (resolved_fields_nonempty (calmWorld sampleIssuer) sampleFlags [] sampleGlobals
      (by decide)).2.1,
   (resolved_fields_nonempty (calmWorld sampleIssuer) sampleFlags [] sampleGlobals
      (by decide)).2.2.1,
   (resolved_fields_nonempty (calmWorld sampleIssuer) sampleFlags [] sampleGlobals
      (by decide)).2.2.2.1,
   (resolved_fields_nonempty (calmWorld sampleIssuer) sampleFlags [] sampleGlobals
      (by decide)).2.2.2.2.2.1⟩

/-- C10: the default role name does not determine its fields: two different
tuples of non-empty strings give the same name (cluster `a-b`, namespace `c`
against cluster `a`, namespace `b-c`); for tuples whose fields contain no
dash, equal names force equal tuples. -/
theorem default_role_name_injectivity :
    (∃ r c n s r' c' n' s' : String,
      r ≠ "" ∧ c ≠ "" ∧ n ≠ "" ∧ s ≠ "" ∧ r' ≠ "" ∧ c' ≠ "" ∧ n' ≠ "" ∧ s' ≠ "" ∧
      (r, c, n, s) ≠ (r', c', n', s') ∧
      sprintfDashed defaultIAMRole r c n s = sprintfDashed defaultIAMRole r' c' n' s') ∧
    (∀ r c n s r' c' n' s' : String,
      '-' ∉ r.data → '-' ∉ c.data → '-' ∉ n.data → '-' ∉ s.data →
      '-' ∉ r'.data → '-' ∉ c'.data → '-' ∉ n'.data → '-' ∉ s'.data →
      sprintfDashed defaultIAMRole r c n s = sprintfDashed defaultIAMRole r' c' n' s' →
      r = r' ∧ c = c' ∧ n = n' ∧ s = s') := by
  constructor
  · exact ⟨"us-east-1", "a-b", "c", "sa", "us-east-1", "a", "b-c", "sa", by decide⟩
  · intro r c n s r' c' n' s' hr hc hn _ hr' hc' hn' _ h
    have hd := congrArg String.data h
    rw [sprintfDashed_data, sprintfDashed_data] at hd
    have h0 := List.append_cancel_left hd
    simp only [List.cons.injEq, true_and] at h0
    obtain ⟨e1, h1⟩ := dash_split hr hr' h0
    obtain ⟨e2, h2⟩ := dash_split hc hc' h1
    obtain ⟨e3, e4⟩ := dash_split hn hn' h2
    exact ⟨String.ext e1, String.ext e2, String.ext e3, String.ext e4⟩

theorem default_role_name_injectivity_witness :
    sprintfDashed defaultIAMRole "useast1" "c1" "ns" "sa" =
      sprintfDashed defaultIAMRole "useast1" "c1" "ns" "sa" ∧
    ("useast1" = "useast1" ∧ "c1" = "c1" ∧ "ns" = "ns" ∧ "sa" = "sa") :=
  ⟨rfl, default_role_name_injectivity.2 "useast1" "c1" "ns" "sa" "useast1" "c1" "ns" "sa"
    (by decide) (by decide) (by decide) (by decide) (by decide) (by decide) (by decide)
    (by decide) rfl⟩

end AmpEksIam
